import Mathlib

/-!
Verification of the ComfyUI-GrsAI client library (api_client.py, upload.py).

The development shallowly embeds the request/response engine
(GrsaiAPI._make_request), the response decoder, the payload builders
(gpt_image_generate_image / flux_generate_image), the parallel result
fetcher, and the upload round-trip (upload.py), and proves or refutes the
specified properties about them.

External effects (the HTTP server, json.loads, image downloads, the
filesystem) are modelled as explicit oracles passed to the embedded
functions; machine behaviour that the source relies on (Python string
operations, dict indexing, ThreadPoolExecutor argument validation) is
modelled explicitly and faithfully.
-/

/-- JSON values as produced by Python json.loads: null, booleans, numbers,
strings, arrays and objects.  Numbers are modelled as integers; no claim
depends on fractional JSON numbers. -/
inductive Json where
  | null
  | bool (b : Bool)
  | num (n : Int)
  | str (s : String)
  | arr (xs : List Json)
  | obj (fields : List (String × Json))

/-- Python dict indexing d[k] on a decoded JSON value: returns the value
under key k when the value is an object that has the key, and none
otherwise (Python raises KeyError for a missing key and TypeError when the
value is not a dict; both are failures for the caller). -/
def Json.getField : Json → String → Option Json
  | .obj fields, k => (fields.find? (fun kv => kv.1 == k)).map (fun kv => kv.2)
  | _, _ => none

/-- Python str.startswith: the needle is a prefix of the character
sequence of the subject string. -/
def pyStartsWith (s pre : String) : Bool := pre.data.isPrefixOf s.data

/-- Python slicing s[n:]: drop the first n characters. -/
def pyDrop (s : String) (n : Nat) : String := String.mk (s.data.drop n)

/-- The 200-body normalization of _make_request (api_client.py lines
102-106): if the body starts with the literal "data: " take the text from
index 6 on, otherwise take the body unchanged. -/
def stripDataTag (text : String) : String :=
  if pyStartsWith text "data: " then pyDrop text 6 else text

/-- The Response Decoder step of _make_request on an HTTP 200 body:
normalize the SSE-style framing, then hand the remainder to json.loads
(modelled as the oracle parse, since json.loads is Python stdlib). -/
def decodeBody (parse : String → Option Json) (body : String) : Option Json :=
  parse (stripDataTag body)

/-- What the server (or the network) does on one HTTP attempt of
_make_request: a response with a status code and a body, a
requests.exceptions.Timeout, a requests.exceptions.ConnectionError, or
some other exception raised while sending. -/
inductive AttemptEvent where
  | response (status : Nat) (body : String)
  | timeoutExc
  | connectionExc
  | otherExc (msg : String)

/-- The exception values that end up in the blanket `except Exception`
handler of _make_request (api_client.py line 139).  Because the raise
statements for 401, 429, the final 500 and the other-status branch sit
inside the try block, the GrsaiAPIError values they raise are caught
here, alongside json.loads failures and any other exception. -/
inductive Caught where
  | authErr
  | rateErr
  | serverErr (status : Nat)
  | reqErr (status : Nat) (serverMsg : Option Json)
  | decodeErr
  | otherErr (msg : String)

/-- The error payloads with which _make_request can actually terminate.
timeoutMsg and connFailedMsg are the dedicated messages of the Timeout /
ConnectionError handlers; exhaustedMsg is the fall-through of line 145
(reachable only when max_retries is 0). wrapped models
GrsaiAPIError(format_error_message(e, "网络请求")) raised at line 143.
format_error_message lives in utils.py, which is absent here; per the
spec (section 4.1) it wraps carrying the original cause, so wrapped keeps
the caught cause intact. -/
inductive ErrMsg where
  | timeoutMsg
  | connFailedMsg
  | wrapped (cause : Caught)
  | exhaustedMsg

/-- Observable record of one execution of _make_request: how many HTTP
calls were issued, which time.sleep durations were performed (in seconds,
in order), and the final outcome. -/
structure ReqTrace where
  calls : Nat
  sleeps : List Nat
  result : Except ErrMsg Json

/-- The shared retry step of _make_request: with attempts remaining
(attempt < max_retries - 1) sleep 2 ^ attempt seconds and continue with
the already-computed rest of the loop, else raise the given error. -/
def retryOrErr (maxRetries attempt : Nat) (e : ErrMsg) (t : ReqTrace) : ReqTrace :=
  if attempt < maxRetries - 1 then
    ⟨t.calls + 1, 2 ^ attempt :: t.sleeps, t.result⟩
  else ⟨1, [], .error e⟩

/-- The attempt loop of _make_request (api_client.py lines 91-145),
translated branch by branch.  fuel is the number of loop iterations still
to run (maxRetries - attempt); events gives the server/network outcome of
each attempt; parse is json.loads.  Note that the 401, 429, final-500,
other-status and json.loads failures are raised inside the try block, so
they land in the `except Exception` handler: while attempts remain they
are retried with exponential backoff, and only on the last attempt is the
wrapped error raised. -/
def makeRequestAux (parse : String → Option Json) (maxRetries : Nat)
    (events : Nat → AttemptEvent) : Nat → Nat → ReqTrace
  | _, 0 => ⟨0, [], .error .exhaustedMsg⟩
  | attempt, fuel + 1 =>
    match events attempt with
    | .response status body =>
      if status = 200 then
        match parse (stripDataTag body) with
        | some j => ⟨1, [], .ok j⟩
        | none =>
          retryOrErr maxRetries attempt (.wrapped .decodeErr)
            (makeRequestAux parse maxRetries events (attempt + 1) fuel)
      else if status = 401 then
        retryOrErr maxRetries attempt (.wrapped .authErr)
          (makeRequestAux parse maxRetries events (attempt + 1) fuel)
      else if status = 429 then
        retryOrErr maxRetries attempt (.wrapped .rateErr)
          (makeRequestAux parse maxRetries events (attempt + 1) fuel)
      else if 500 ≤ status then
        retryOrErr maxRetries attempt (.wrapped (.serverErr status))
          (makeRequestAux parse maxRetries events (attempt + 1) fuel)
      else
        retryOrErr maxRetries attempt
          (.wrapped (.reqErr status ((parse body).bind (fun j => j.getField "error"))))
          (makeRequestAux parse maxRetries events (attempt + 1) fuel)
    | .timeoutExc =>
      retryOrErr maxRetries attempt .timeoutMsg
        (makeRequestAux parse maxRetries events (attempt + 1) fuel)
    | .connectionExc =>
      retryOrErr maxRetries attempt .connFailedMsg
        (makeRequestAux parse maxRetries events (attempt + 1) fuel)
    | .otherExc m =>
      retryOrErr maxRetries attempt (.wrapped (.otherErr m))
        (makeRequestAux parse maxRetries events (attempt + 1) fuel)

/-- GrsaiAPI._make_request: run the attempt loop from attempt 0 with
max_retries iterations of fuel (the Python for-loop runs exactly
max_retries times unless it returns or raises first). -/
def make_request (parse : String → Option Json) (maxRetries : Nat)
    (events : Nat → AttemptEvent) : ReqTrace :=
  makeRequestAux parse maxRetries events 0 maxRetries

/-- A json.loads oracle that accepts nothing; used to evaluate the
transport loop on bodies that are not valid JSON. -/
def noParse : String → Option Json := fun _ => none

/-- A json.loads oracle capturing the stdlib behaviour on the two inputs
of the decoder counterexample: the text "1" is valid JSON (the number 1)
while the text "data: 1" is not valid JSON. -/
def jsonLoadsOn1 (s : String) : Option Json :=
  if s = "1" then some (.num 1) else none

/-- Python values that can appear in the request payload dict of the
generation request builders: None, bool, int, float, str, list.  Floats
are carried as rationals; the builders never do arithmetic on them. -/
inductive PyVal where
  | pynone
  | pybool (b : Bool)
  | pyint (n : Int)
  | pyfloat (q : Rat)
  | pystr (s : String)
  | pylist (xs : List PyVal)

/-- An Optional[...] Python argument as the payload value it denotes. -/
def pyOpt (v : Option PyVal) : PyVal :=
  match v with
  | some x => x
  | none => .pynone

/-- The filter of the optional-parameter loops (api_client.py lines
170-173 and 262-265): `value is not None and value != ""`.  In Python a
value of a non-string type is never equal to "", so only None and the
empty string are rejected; 0 and False pass. -/
def keepsValue : PyVal → Bool
  | .pynone => false
  | .pystr s => !(s == "")
  | _ => true

/-- The optional-parameter loop: for each (key, value) in order, add the
pair to the payload when the filter keeps the value.  The optional keys
are distinct from the required keys, so dict assignment is an append. -/
def addOptional (payload : List (String × PyVal)) (opts : List (String × PyVal)) :
    List (String × PyVal) :=
  opts.foldl (fun acc kv => if keepsValue kv.2 then acc ++ [kv] else acc) payload

/-- Python dict lookup on the built payload (keys are unique). -/
def payloadLookup (p : List (String × PyVal)) (k : String) : Option PyVal :=
  (p.find? (fun kv => kv.1 == k)).map (fun kv => kv.2)

/-- The request payload built by gpt_image_generate_image (api_client.py
lines 156-173): required fields model, prompt, urls, shutProgress, then
the optional fields size and variants filtered by keepsValue. -/
def gpt_image_payload (model prompt : String) (urls : List String)
    (size : Option String) (variants : Option Int) : List (String × PyVal) :=
  addOptional
    [("model", .pystr model), ("prompt", .pystr prompt),
     ("urls", .pylist (urls.map .pystr)), ("shutProgress", .pybool true)]
    [("size", pyOpt (size.map .pystr)), ("variants", pyOpt (variants.map .pyint))]

/-- The request payload built by flux_generate_image (api_client.py lines
243-265): required fields model, prompt, urls, shutProgress, then the
seven optional fields filtered by keepsValue. -/
def flux_payload (model prompt : String) (urls : List String)
    (seed : Option Int) (aspect_ratio : Option String)
    (output_format : Option String) (safety_tolerance : Option Int)
    (prompt_upsampling : Option Bool) (guidance_scale : Option Rat)
    (num_inference_steps : Option Int) : List (String × PyVal) :=
  addOptional
    [("model", .pystr model), ("prompt", .pystr prompt),
     ("urls", .pylist (urls.map .pystr)), ("shutProgress", .pybool true)]
    [("seed", pyOpt (seed.map .pyint)),
     ("aspectRatio", pyOpt (aspect_ratio.map .pystr)),
     ("output_format", pyOpt (output_format.map .pystr)),
     ("safetyTolerance", pyOpt (safety_tolerance.map .pyint)),
     ("promptUpsampling", pyOpt (prompt_upsampling.map .pybool)),
     ("guidance", pyOpt (guidance_scale.map .pyfloat)),
     ("steps", pyOpt (num_inference_steps.map .pyint))]

/-- The three collections returned by gpt_image_generate_image: the
downloaded images, their source urls (appended in lockstep with the
images), and the failure descriptions. -/
structure FetchOutcome (υ α : Type) where
  pil_images : List α
  image_urls : List υ
  errors : List String

/-- The parallel fan-out of gpt_image_generate_image (api_client.py lines
210-227): one download task per url; a task that yields an image
contributes (image, url) to the success collections, a task that raises
contributes the constant entry "图像生成异常" to the error list; every
task is joined, no failure aborts the siblings.  The download oracle
models thread_download_image's use of utils.download_image (absent
here): some image on success, none on any failure. -/
def fetchAll {υ α : Type} (download : υ → Option α) : List υ → FetchOutcome υ α
  | [] => ⟨[], [], []⟩
  | u :: rest =>
    let t := fetchAll download rest
    match download u with
    | some img => ⟨img :: t.pil_images, u :: t.image_urls, t.errors⟩
    | none => ⟨t.pil_images, t.image_urls, "图像生成异常" :: t.errors⟩

/-- The failures of the post-response phase of gpt_image_generate_image
(api_client.py lines 184-227): an indexing failure (Python KeyError or
TypeError), the GrsaiAPIError raised when status is not "succeeded"
(carrying response["id"]), and the ValueError raised by
ThreadPoolExecutor(max_workers=0) when the results list is empty. -/
inductive GenErr where
  | pyLookupErr
  | genFailed (respId : Json)
  | maxWorkersValueErr

/-- Classification of GenErr values by Python exception class: only
genFailed is a GrsaiAPIError; the lookup errors and the ValueError are
ordinary Python exceptions escaping the public method. -/
def GenErr.isGrsaiAPIError : GenErr → Bool
  | .genFailed _ => true
  | _ => false

/-- Python equality test between a decoded JSON value and a string
literal: true exactly when the value is that string. -/
def isStrEq (v : Json) (t : String) : Bool :=
  match v with
  | .str s => s == t
  | _ => false

/-- The comprehension [result["url"] for result in results] over a list of
decoded results: each element must support ["url"] indexing, else the
comprehension raises. -/
def urlFields : List Json → Except GenErr (List Json)
  | [] => .ok []
  | x :: xs =>
    match x.getField "url" with
    | none => .error .pyLookupErr
    | some u => (urlFields xs).map (fun rest => u :: rest)

/-- The comprehension [result["url"] for result in results] on the raw
response["results"] value: iterating a JSON array visits its elements;
iterating an empty string or empty object visits nothing; iterating any
other value (or indexing its elements) raises a TypeError. -/
def iterIndexUrl : Json → Except GenErr (List Json)
  | .arr xs => urlFields xs
  | .str s => if s = "" then .ok [] else .error .pyLookupErr
  | .obj fields => if fields.isEmpty then .ok [] else .error .pyLookupErr
  | _ => .error .pyLookupErr

/-- The post-response phase of gpt_image_generate_image (api_client.py
lines 184-227): read response["status"]; on a non-"succeeded" status
raise GrsaiAPIError carrying response["id"]; else read
response["results"], extract the url of every result, construct
ThreadPoolExecutor(max_workers=len(resultsUrls)) — which raises
ValueError when that length is 0 — and run the parallel fetch. -/
def gpt_post_response {α : Type} (download : Json → Option α) (resp : Json) :
    Except GenErr (FetchOutcome Json α) :=
  match resp.getField "status" with
  | none => .error .pyLookupErr
  | some st =>
    if isStrEq st "succeeded" then
      match resp.getField "results" with
      | none => .error .pyLookupErr
      | some results =>
        match iterIndexUrl results with
        | .error e => .error e
        | .ok resultsUrls =>
          if resultsUrls.length = 0 then .error .maxWorkersValueErr
          else .ok (fetchAll download resultsUrls)
    else
      match resp.getField "id" with
      | none => .error .pyLookupErr
      | some i => .error (.genFailed i)

/-- The failures of the whole public gpt_image_generate_image call: a
GrsaiAPIError from the transport layer (re-raised as-is by lines
178-182), or a post-response failure. -/
inductive TopErr where
  | transportErr (m : ErrMsg)
  | genErr (g : GenErr)

/-- Classification of TopErr by Python exception class: every transport
error is a GrsaiAPIError; in the post-response phase only genFailed is. -/
def TopErr.is_grsai_api_error : TopErr → Bool
  | .transportErr _ => true
  | .genErr g => g.isGrsaiAPIError

/-- GrsaiAPI.gpt_image_generate_image (api_client.py lines 147-227) after
the payload has been posted: the transport loop runs, a transport error
propagates unchanged (lines 178-182 re-raise GrsaiAPIError as-is, and
_make_request raises nothing else), and a decoded response enters the
post-response phase whose failures escape the method uncaught. -/
def gpt_image_generate_image {α : Type} (parse : String → Option Json)
    (maxRetries : Nat) (events : Nat → AttemptEvent)
    (download : Json → Option α) : Except TopErr (FetchOutcome Json α) :=
  match (make_request parse maxRetries events).result with
  | .error m => .error (.transportErr m)
  | .ok resp =>
    match gpt_post_response download resp with
    | .error g => .error (.genErr g)
    | .ok out => .ok out

/-- The failures of the post-response phase of flux_generate_image
(api_client.py lines 276-295): an indexing failure on response["url"],
the GrsaiAPIError raised for an invalid URL value (not a string or not
starting with "http"), and the GrsaiAPIError wrapping a failed or
faulty download. -/
inductive FluxErr where
  | pyLookupErr
  | invalidUrlFormat (v : Json)
  | downloadFailed

/-- The post-response phase of flux_generate_image (api_client.py lines
276-295): read response["url"]; if the value is not a string or does not
start with "http", raise the invalid-URL GrsaiAPIError before any
download; otherwise download the single image (utils.download_image is
the oracle) and wrap a failure into a GrsaiAPIError. -/
def flux_post_response {α : Type} (download : String → Option α) (resp : Json) :
    Except FluxErr (α × String) :=
  match resp.getField "url" with
  | none => .error .pyLookupErr
  | some v =>
    match v with
    | .str u =>
      if pyStartsWith u "http" then
        match download u with
        | some img => .ok (img, u)
        | none => .error .downloadFailed
      else .error (.invalidUrlFormat (.str u))
    | other => .error (.invalidUrlFormat other)

/-- Test used by the flux URL validation: the response value is a string
starting with "http" (the source tests
isinstance(image_url, str) and image_url.startswith("http")). -/
def isHttpStr : Json → Bool
  | .str u => pyStartsWith u "http"
  | _ => false

/-- Python str.strip() on the API key: drop whitespace from both ends. -/
def pyStrip (s : String) : String :=
  String.mk (((s.data.dropWhile Char.isWhitespace).reverse.dropWhile Char.isWhitespace).reverse)

/-- Index of the last occurrence of a character in a character list, as
Python str.rfind but with none instead of -1. -/
def lastIdxOf (l : List Char) (c : Char) : Option Nat :=
  match (l.reverse.findIdx? (fun x => x == c)) with
  | none => none
  | some i => some (l.length - 1 - i)

/-- The extension part of os.path.splitext (posix): the suffix starting
at the last "." of the final path component, provided that component has
a non-dot character before that dot; otherwise the empty string. -/
def splitext_ext (p : String) : String :=
  let l := p.data
  let sep : Int := match lastIdxOf l '/' with | none => -1 | some i => i
  let dot : Int := match lastIdxOf l '.' with | none => -1 | some i => i
  if sep < dot then
    let base := (l.drop (sep + 1).toNat).take (dot - sep - 1).toNat
    if base.any (fun c => c != '.') then String.mk (l.drop dot.toNat) else ""
  else ""

/-- Python str.lstrip("."): drop every leading dot. -/
def lstripDot (s : String) : String :=
  String.mk (s.data.dropWhile (fun c => c == '.'))

/-- The file-extension computation of upload_file / upload_file_zh
(upload.py lines 124-127 and 193-196): splitext extension with leading
dots stripped, defaulting to "png" when empty. -/
def uploadExt (file_path : String) : String :=
  let e := lstripDot (splitext_ext file_path)
  if e == "" then "png" else e

/-- Outcome of one call of get_upload_token / get_upload_token_zh
(upload.py lines 13-88): a decoded JSON response, a
requests.exceptions.RequestException (connection failure or
raise_for_status), or a JSON decode failure re-raised as ValueError. -/
inductive TokenOutcome where
  | ok (j : Json)
  | requestExc
  | jsonExc

/-- The environment of upload_file / upload_file_zh; everything outside
upload.py itself.  config_api_key and api_key_error_message come from
config.py (absent here; spec section 4.5 keeps them opaque);
file_exists is os.path.exists; new_upload_token (indexed by the sux
extension sent) is the token-negotiation response; read_ok is the local
file open/read; put_ok / post_ok are the direct PUT and form POST
transfers including their raise_for_status. -/
structure UploadWorld where
  config_api_key : Option String
  api_key_error_message : String
  file_exists : String → Bool
  new_upload_token : String → TokenOutcome
  new_upload_token_zh : String → TokenOutcome
  read_ok : Bool
  put_ok : Bool
  post_ok : Bool

/-- The failures of upload_file / upload_file_zh: the ValueError for a
missing or malformed API key, FileNotFoundError, the re-raised
RequestException of token negotiation or transfer, the ValueError of a
token response that is not JSON, an indexing failure on the token
response, a TypeError when domain or key is not a string, and IOError
on reading the local file. -/
inductive UploadErr where
  | valueErrBadKey (msg : String)
  | fileNotFound (path : String)
  | requestExc
  | jsonValueErr
  | pyLookupErr
  | typeErr
  | ioErr

/-- The backward-compatibility argument swap of upload_file and
upload_file_zh (upload.py lines 93-94 and 163-164): with no file_path
and a non-empty api_key string that does not start with "sk-", the
api_key positional argument is taken as the file path. -/
def uploadSwap (api_key : Option String) (file_path : String) :
    Option String × String :=
  let doSwap : Bool :=
    (file_path == "") &&
      (match api_key with
       | some s => (s != "") && !(pyStartsWith s "sk-")
       | none => false)
  if doSwap then
    match api_key with
    | some s => (none, s)
    | none => (api_key, file_path)
  else (api_key, file_path)

/-- The effective-key resolution of upload_file and upload_file_zh
(upload.py lines 113-115 and 183-185): strip the explicit key, fall back
to the configured key when empty. -/
def effectiveKey (w : UploadWorld) (api_key : Option String) : String :=
  let ek0 := pyStrip (match api_key with | some s => s | none => "")
  if ek0 == "" then (match w.config_api_key with | some s => s | none => "") else ek0

/-- The shared tail of both upload variants: given the extracted domain
and key values of the token response and the success of reading and
transferring the file, return domain + "/" + key (upload.py lines
136-158 and 206-232). -/
def uploadFinish (w : UploadWorld) (transferOk : Bool) (domv keyv : Json) :
    Except UploadErr String :=
  if w.read_ok then
    if transferOk then
      match domv, keyv with
      | .str domain, .str key => .ok (domain ++ "/" ++ key)
      | _, _ => .error .typeErr
    else .error .requestExc
  else .error .ioErr

/-- upload_file (upload.py lines 91-158): argument swap, empty-path
early return of "", API-key validation, file-existence check, extension
computation, token negotiation, extraction of url, key and domain from
result["data"], direct PUT of the bytes, and the final URL
domain + "/" + key. -/
def upload_file (w : UploadWorld) (api_key : Option String) (file_path : String) :
    Except UploadErr String :=
  let swapped := uploadSwap api_key file_path
  let ak := swapped.1
  let fp := swapped.2
  if fp == "" then .ok ""
  else
    let ek := effectiveKey w ak
    if ek == "" || !(pyStartsWith ek "sk-") then
      .error (.valueErrBadKey w.api_key_error_message)
    else if !(w.file_exists fp) then .error (.fileNotFound fp)
    else
      match w.new_upload_token (uploadExt fp) with
      | .requestExc => .error .requestExc
      | .jsonExc => .error .jsonValueErr
      | .ok j =>
        match j.getField "data" with
        | none => .error .pyLookupErr
        | some d =>
          match d.getField "url", d.getField "key", d.getField "domain" with
          | some _, some keyv, some domv => uploadFinish w w.put_ok domv keyv
          | _, _, _ => .error .pyLookupErr

/-- upload_file_zh (upload.py lines 161-232): as upload_file, but the
token response also carries a form token, and the transfer is a
multipart form POST; the returned URL is again domain + "/" + key. -/
def upload_file_zh (w : UploadWorld) (api_key : Option String) (file_path : String) :
    Except UploadErr String :=
  let swapped := uploadSwap api_key file_path
  let ak := swapped.1
  let fp := swapped.2
  if fp == "" then .ok ""
  else
    let ek := effectiveKey w ak
    if ek == "" || !(pyStartsWith ek "sk-") then
      .error (.valueErrBadKey w.api_key_error_message)
    else if !(w.file_exists fp) then .error (.fileNotFound fp)
    else
      match w.new_upload_token_zh (uploadExt fp) with
      | .requestExc => .error .requestExc
      | .jsonExc => .error .jsonValueErr
      | .ok j =>
        match j.getField "data" with
        | none => .error .pyLookupErr
        | some d =>
          match d.getField "token", d.getField "key", d.getField "url", d.getField "domain" with
          | some _, some keyv, some _, some domv => uploadFinish w w.post_ok domv keyv
          | _, _, _, _ => .error .pyLookupErr

/-- Presence formula of the claim for an optional string-valued
parameter: present with its value exactly when supplied and non-empty. -/
def strFieldEntry (v : Option String) : Option PyVal :=
  match v with
  | some s => if s = "" then none else some (.pystr s)
  | none => none

/-- Concrete token-negotiation data object used to instantiate the
upload round-trip. -/
def uploadDataJson : Json :=
  Json.obj [("url", Json.str "https://put.example/obj"), ("key", Json.str "k1"),
    ("domain", Json.str "https://cdn.example")]

/-- Concrete direct-PUT token-negotiation response. -/
def uploadTokenJson : Json := Json.obj [("data", uploadDataJson)]

/-- Concrete form-POST token-negotiation data object. -/
def uploadDataJsonZh : Json :=
  Json.obj [("token", Json.str "t1"), ("key", Json.str "k2"),
    ("url", Json.str "https://post.example/obj"), ("domain", Json.str "https://cdn2.example")]

/-- Concrete form-POST token-negotiation response. -/
def uploadTokenJsonZh : Json := Json.obj [("data", uploadDataJsonZh)]

/-- Concrete upload environment in which both upload variants succeed. -/
def uploadWorldW : UploadWorld :=
  ⟨none, "missing api key", fun _ => true, fun _ => TokenOutcome.ok uploadTokenJson,
    fun _ => TokenOutcome.ok uploadTokenJsonZh, true, true, true⟩

/-- Each retry step issues at most one further HTTP call. -/
theorem retryOrErr_calls_le (m a : Nat) (e : ErrMsg) (t : ReqTrace) :
    (retryOrErr m a e t).calls ≤ t.calls + 1 := by
  unfold retryOrErr
  split <;> simp

/-- The attempt loop issues at most fuel HTTP calls. -/
theorem makeRequestAux_calls_le (parse : String → Option Json) (m : Nat)
    (events : Nat → AttemptEvent) :
    ∀ fuel attempt, (makeRequestAux parse m events attempt fuel).calls ≤ fuel := by
  intro fuel
  induction fuel with
  | zero => intro a; simp [makeRequestAux]
  | succ f ih =>
    intro a
    have hb : ∀ e, (retryOrErr m a e (makeRequestAux parse m events (a + 1) f)).calls ≤ f + 1 :=
      fun e => le_trans (retryOrErr_calls_le m a e _) (by have := ih (a + 1); omega)
    unfold makeRequestAux
    cases events a with
    | response status body =>
      by_cases h200 : status = 200
      · simp only [h200, if_pos rfl]
        cases parse (stripDataTag body) with
        | some j => simp
        | none => simpa using hb (.wrapped .decodeErr)
      · simp only [if_neg h200]
        split
        · exact hb _
        · split
          · exact hb _
          · split
            · exact hb _
            · exact hb _
    | timeoutExc => exact hb _
    | connectionExc => exact hb _
    | otherExc msg => exact hb _

/-- Closed form of the attempt loop when every attempt takes the same
retry-or-fail step with the same terminal error: all fuel attempts are
issued, each non-final attempt sleeps 2 ^ attempt, and the run ends in
the terminal error. -/
theorem makeRequestAux_const (parse : String → Option Json) (m : Nat)
    (events : Nat → AttemptEvent) (e : ErrMsg)
    (hstep : ∀ attempt fuel, makeRequestAux parse m events attempt (fuel + 1) =
      retryOrErr m attempt e (makeRequestAux parse m events (attempt + 1) fuel)) :
    ∀ fuel attempt, attempt + fuel = m → 1 ≤ fuel →
      makeRequestAux parse m events attempt fuel =
        ⟨fuel, (List.range (fuel - 1)).map (fun i => 2 ^ (attempt + i)), .error e⟩ := by
  intro fuel
  induction fuel with
  | zero => intro a _ h1; omega
  | succ f ih =>
    intro a hsum _
    rw [hstep]
    cases f with
    | zero =>
      unfold retryOrErr
      rw [if_neg (by omega)]
      simp
    | succ f2 =>
      have h1 : a < m - 1 := by omega
      have hrec := ih (a + 1) (by omega) (by omega)
      unfold retryOrErr
      rw [if_pos h1, hrec]
      simp only [Nat.succ_sub_one]
      refine congrArg (fun l => ReqTrace.mk (f2 + 1 + 1) l (.error e)) ?_
      rw [List.range_succ_eq_map f2]
      simp only [List.map_cons, List.map_map, Function.comp_def, Nat.add_zero, List.cons.injEq]
      refine ⟨trivial, List.map_congr_left ?_⟩
      intro i _
      have hx : a + 1 + i = a + Nat.succ i := by omega
      rw [hx]

/-- One loop iteration on a constant status >= 500 server is the shared
retry step with the wrapped server error. -/
theorem makeRequestAux_step_500 (parse : String → Option Json) (m s : Nat)
    (body : String) (hs : 500 ≤ s) :
    ∀ attempt fuel, makeRequestAux parse m (fun _ => .response s body) attempt (fuel + 1) =
      retryOrErr m attempt (.wrapped (.serverErr s))
        (makeRequestAux parse m (fun _ => .response s body) (attempt + 1) fuel) := by
  intro a f
  simp only [makeRequestAux]
  rw [if_neg (by omega : ¬ s = 200), if_neg (by omega : ¬ s = 401),
    if_neg (by omega : ¬ s = 429), if_pos hs]

/-- One loop iteration on a constant 200-with-undecodable-body server is
the shared retry step with the wrapped decode error. -/
theorem makeRequestAux_step_badjson (parse : String → Option Json) (m : Nat)
    (body : String) (hbad : parse (stripDataTag body) = none) :
    ∀ attempt fuel, makeRequestAux parse m (fun _ => .response 200 body) attempt (fuel + 1) =
      retryOrErr m attempt (.wrapped .decodeErr)
        (makeRequestAux parse m (fun _ => .response 200 body) (attempt + 1) fuel) := by
  intro a f
  simp only [makeRequestAux]
  rw [if_pos trivial, hbad]

/-- The optional-parameter loop appends exactly the entries kept by the
filter, in order. -/
theorem addOptional_eq (base opts : List (String × PyVal)) :
    addOptional base opts = base ++ opts.filter (fun kv => keepsValue kv.2) := by
  induction opts generalizing base with
  | nil => simp [addOptional]
  | cons kv rest ih =>
    unfold addOptional at ih ⊢
    rw [List.foldl_cons]
    by_cases h : keepsValue kv.2
    · simp only [h, if_true]
      rw [ih]
      simp [List.filter_cons, h]
    · simp only [h, if_false]
      rw [ih]
      simp [List.filter_cons, h]

/-- Searching a filtered list is searching the original list for an
element satisfying both predicates. -/
theorem findFilter {β : Type} (l : List β) (q p : β → Bool) :
    (l.filter q).find? p = l.find? (fun a => p a && q a) := by
  induction l with
  | nil => rfl
  | cons x xs ih =>
    by_cases hq : q x <;> by_cases hp : p x <;>
      simp [List.filter_cons, List.find?, hq, hp, ih]

/-- Lookup in a built payload: first the required fields, then the first
kept optional entry with the key. -/
theorem payloadLookup_addOptional (base opts : List (String × PyVal)) (k : String) :
    payloadLookup (addOptional base opts) k =
      ((base.find? (fun kv => kv.1 == k)).or
        (opts.find? (fun kv => (kv.1 == k) && keepsValue kv.2))).map (fun kv => kv.2) := by
  unfold payloadLookup
  rw [addOptional_eq, List.find?_append, findFilter]

/-- A string with a non-empty Python prefix is itself non-empty. -/
theorem pyStartsWith_ne_empty (s pre : String) (hpre : pre.data ≠ [])
    (h : pyStartsWith s pre = true) : (s == "") = false := by
  unfold pyStartsWith at h
  have h2 : pre.data <+: s.data := by rwa [← List.isPrefixOf_iff_prefix]
  have h3 : s.data ≠ [] := by
    intro he
    rw [he] at h2
    exact hpre (List.prefix_nil.mp h2)
  have h4 : s ≠ "" := by
    intro he
    rw [he] at h3
    exact h3 rfl
  exact beq_eq_false_iff_ne.mpr h4

/-- Claim C1 (code bug): with the default max_retries of 3 and a server
answering HTTP 401 on every attempt, _make_request does not fail
immediately: the GrsaiAPIError it raises for 401 is caught by its own
blanket except handler, so three HTTP calls are issued with backoff
sleeps of 1 and 2 seconds, and the final error is the generic wrapper
around the auth cause — not the immediate auth failure with zero extra
attempts that the claim states. -/
theorem make_request_401_retried_bug :
    make_request noParse 3 (fun _ => .response 401 "irrelevant") =
      ⟨3, [1, 2], .error (.wrapped .authErr)⟩ ∧
    (make_request noParse 3 (fun _ => .response 401 "irrelevant")).calls ≠ 1 ∧
    (make_request noParse 3 (fun _ => .response 401 "irrelevant")).sleeps ≠ [] :=
  ⟨rfl, by decide, by decide⟩

/-- Claim C2: for every retry budget m >= 1 and every status s >= 500
answered on all attempts, _make_request sleeps exactly 1 * 2 ^ attempt
seconds after each non-final attempt (sleeps [2^0, ..., 2^(m-2)]),
issues exactly m HTTP calls, and at the last attempt raises the
server-error failure carrying the status code instead of retrying;
moreover for every server behaviour the number of HTTP calls never
exceeds m. -/
theorem make_request_500_backoff (parse : String → Option Json) (m s : Nat)
    (body : String) (events : Nat → AttemptEvent) (hm : 1 ≤ m) (hs : 500 ≤ s) :
    make_request parse m (fun _ => .response s body) =
      ⟨m, (List.range (m - 1)).map (fun attempt => 2 ^ attempt),
        .error (.wrapped (.serverErr s))⟩ ∧
    (make_request parse m events).calls ≤ m := by
  constructor
  · have h := makeRequestAux_const parse m (fun _ => .response s body)
      (.wrapped (.serverErr s)) (makeRequestAux_step_500 parse m s body hs) m 0
      (by omega) hm
    unfold make_request
    rw [h]
    simp
  · exact makeRequestAux_calls_le parse m events m 0

/-- Witness for the backoff theorem at m = 3 and status 503. -/
theorem make_request_500_backoff_witness :
    make_request noParse 3 (fun _ => .response 503 "x") =
      ⟨3, (List.range 2).map (fun attempt => 2 ^ attempt),
        .error (.wrapped (.serverErr 503))⟩ ∧
    (make_request noParse 3 (fun _ => AttemptEvent.timeoutExc)).calls ≤ 3 :=
  make_request_500_backoff noParse 3 503 "x" (fun _ => AttemptEvent.timeoutExc)
    (by decide) (by decide)

/-- Claim C3 (code bug): with the default max_retries of 3 and a server
answering HTTP 429 on every attempt, _make_request does not surface the
rate-limit error immediately: the GrsaiAPIError it raises for 429 is
caught by the blanket except handler, so three HTTP calls are issued
with backoff sleeps of 1 and 2 seconds before the wrapped error is
raised — contradicting the claimed non-retryable immediate failure. -/
theorem make_request_429_retried_bug :
    make_request noParse 3 (fun _ => .response 429 "irrelevant") =
      ⟨3, [1, 2], .error (.wrapped .rateErr)⟩ ∧
    (make_request noParse 3 (fun _ => .response 429 "irrelevant")).calls ≠ 1 ∧
    (make_request noParse 3 (fun _ => .response 429 "irrelevant")).sleeps ≠ [] :=
  ⟨rfl, by decide, by decide⟩

/-- Claim C4 (counterexample): an HTTP 200 response whose body is not
valid JSON is not raised on the spot: with max_retries 3 the request is
retried twice with backoff sleeps 1 and 2 seconds, contradicting the
claim that the malformed-JSON failure is never converted into a retry. -/
theorem make_request_bad_json_retried_ce :
    make_request noParse 3 (fun _ => .response 200 "notjson") =
      ⟨3, [1, 2], .error (.wrapped .decodeErr)⟩ ∧
    (make_request noParse 3 (fun _ => .response 200 "notjson")).calls ≠ 1 ∧
    (make_request noParse 3 (fun _ => .response 200 "notjson")).sleeps ≠ [] :=
  ⟨rfl, by decide, by decide⟩

/-- Claim C4 (amended): an HTTP 200 response whose body fails JSON
parsing is treated like any exception reaching the blanket handler:
while attempts remain the request is retried with backoff 2 ^ attempt,
and on the last attempt the decode failure is raised to the caller
wrapped in the generic GrsaiAPIError — converted into retries, but
never swallowed. -/
theorem make_request_bad_json_amended (parse : String → Option Json) (m : Nat)
    (body : String) (hm : 1 ≤ m) (hbad : parse (stripDataTag body) = none) :
    make_request parse m (fun _ => .response 200 body) =
      ⟨m, (List.range (m - 1)).map (fun attempt => 2 ^ attempt),
        .error (.wrapped .decodeErr)⟩ := by
  have h := makeRequestAux_const parse m (fun _ => .response 200 body)
    (.wrapped .decodeErr) (makeRequestAux_step_badjson parse m body hbad) m 0
    (by omega) hm
  unfold make_request
  rw [h]
  simp

/-- Witness for the amended decode-retry theorem at max_retries 3. -/
theorem make_request_bad_json_amended_witness :
    noParse (stripDataTag "notjson") = none ∧
    make_request noParse 3 (fun _ => .response 200 "notjson") =
      ⟨3, (List.range 2).map (fun attempt => 2 ^ attempt),
        .error (.wrapped .decodeErr)⟩ :=
  ⟨rfl, make_request_bad_json_amended noParse 3 "notjson" (by decide) rfl⟩

/-- Claim C5: for every download oracle and every list of N submitted
result URLs, the parallel fetch returns exactly one (image, url)
success per succeeding URL — the image paired with its own URL — and
exactly one failure entry per failing URL, with
success_count + failure_count = N: all N tasks are accounted for and a
failing task never suppresses its siblings. -/
theorem fetch_all_partition {υ α : Type} (download : υ → Option α) (urls : List υ) :
    (fetchAll download urls).pil_images.length =
      urls.countP (fun u => (download u).isSome) ∧
    (fetchAll download urls).image_urls.length =
      (fetchAll download urls).pil_images.length ∧
    (fetchAll download urls).errors.length =
      urls.countP (fun u => (download u).isNone) ∧
    (fetchAll download urls).pil_images.length + (fetchAll download urls).errors.length =
      urls.length ∧
    (fetchAll download urls).pil_images.zip (fetchAll download urls).image_urls =
      urls.filterMap (fun u => (download u).map (fun img => (img, u))) ∧
    (fetchAll download urls).errors =
      List.replicate (urls.countP (fun u => (download u).isNone)) "图像生成异常" := by
  induction urls with
  | nil => simp [fetchAll]
  | cons u rest ih =>
    obtain ⟨ih1, ih2, ih3, ih4, ih5, ih6⟩ := ih
    have ih4a : rest.countP (fun u => (download u).isSome) +
        rest.countP (fun u => (download u).isNone) = rest.length := by
      rw [← ih1, ← ih3]
      exact ih4
    cases hd : download u with
    | some img =>
      simp [fetchAll, hd, List.countP_cons, ih1, ih2, ih3, ih5, ih6]
      omega
    | none =>
      simp [fetchAll, hd, List.countP_cons, ih1, ih2, ih3, ih5, ih6]
      exact ⟨by omega, by rw [List.replicate_succ]⟩

/-- Claim C6: in the payloads built by gpt_image_generate_image and
flux_generate_image the required fields model, prompt, urls and
shutProgress are always present, and each optional field is present in
the outgoing payload exactly when its value is not None and not the
empty string — in particular the numbers 0, the boolean false and every
other non-None non-empty value are included when supplied. -/
theorem payload_optional_fields (model prompt : String) (urls : List String)
    (size : Option String) (variants : Option Int)
    (seed : Option Int) (aspect_ratio : Option String)
    (output_format : Option String) (safety_tolerance : Option Int)
    (prompt_upsampling : Option Bool) (guidance_scale : Option Rat)
    (num_inference_steps : Option Int) :
    (payloadLookup (gpt_image_payload model prompt urls size variants) "model" = some (.pystr model)) ∧
    (payloadLookup (gpt_image_payload model prompt urls size variants) "prompt" = some (.pystr prompt)) ∧
    (payloadLookup (gpt_image_payload model prompt urls size variants) "urls" = some (.pylist (urls.map .pystr))) ∧
    (payloadLookup (gpt_image_payload model prompt urls size variants) "shutProgress" = some (.pybool true)) ∧
    (payloadLookup (gpt_image_payload model prompt urls size variants) "size" = strFieldEntry size) ∧
    (payloadLookup (gpt_image_payload model prompt urls size variants) "variants" = variants.map .pyint) ∧
    (payloadLookup (flux_payload model prompt urls seed aspect_ratio output_format safety_tolerance prompt_upsampling guidance_scale num_inference_steps) "model" = some (.pystr model)) ∧
    (payloadLookup (flux_payload model prompt urls seed aspect_ratio output_format safety_tolerance prompt_upsampling guidance_scale num_inference_steps) "prompt" = some (.pystr prompt)) ∧
    (payloadLookup (flux_payload model prompt urls seed aspect_ratio output_format safety_tolerance prompt_upsampling guidance_scale num_inference_steps) "urls" = some (.pylist (urls.map .pystr))) ∧
    (payloadLookup (flux_payload model prompt urls seed aspect_ratio output_format safety_tolerance prompt_upsampling guidance_scale num_inference_steps) "shutProgress" = some (.pybool true)) ∧
    (payloadLookup (flux_payload model prompt urls seed aspect_ratio output_format safety_tolerance prompt_upsampling guidance_scale num_inference_steps) "seed" = seed.map .pyint) ∧
    (payloadLookup (flux_payload model prompt urls seed aspect_ratio output_format safety_tolerance prompt_upsampling guidance_scale num_inference_steps) "aspectRatio" = strFieldEntry aspect_ratio) ∧
    (payloadLookup (flux_payload model prompt urls seed aspect_ratio output_format safety_tolerance prompt_upsampling guidance_scale num_inference_steps) "output_format" = strFieldEntry output_format) ∧
    (payloadLookup (flux_payload model prompt urls seed aspect_ratio output_format safety_tolerance prompt_upsampling guidance_scale num_inference_steps) "safetyTolerance" = safety_tolerance.map .pyint) ∧
    (payloadLookup (flux_payload model prompt urls seed aspect_ratio output_format safety_tolerance prompt_upsampling guidance_scale num_inference_steps) "promptUpsampling" = prompt_upsampling.map .pybool) ∧
    (payloadLookup (flux_payload model prompt urls seed aspect_ratio output_format safety_tolerance prompt_upsampling guidance_scale num_inference_steps) "guidance" = guidance_scale.map .pyfloat) ∧
    (payloadLookup (flux_payload model prompt urls seed aspect_ratio output_format safety_tolerance prompt_upsampling guidance_scale num_inference_steps) "steps" = num_inference_steps.map .pyint) := by
  refine ⟨?_, ?_, ?_, ?_, ?_, ?_, ?_, ?_, ?_, ?_, ?_, ?_, ?_, ?_, ?_, ?_, ?_⟩
  · unfold gpt_image_payload
    rw [payloadLookup_addOptional]
    rfl
  · unfold gpt_image_payload
    rw [payloadLookup_addOptional]
    rfl
  · unfold gpt_image_payload
    rw [payloadLookup_addOptional]
    rfl
  · unfold gpt_image_payload
    rw [payloadLookup_addOptional]
    rfl
  · unfold gpt_image_payload
    rw [payloadLookup_addOptional]
    cases size with
    | none => rfl
    | some s =>
      by_cases hs : s = ""
      · have hb : (s == "") = true := by simp [hs]
        simp [keepsValue, pyOpt, List.find?, strFieldEntry, hb, hs]
      · have hb : (s == "") = false := by simp [hs]
        simp [keepsValue, pyOpt, List.find?, strFieldEntry, hb, hs]
  · unfold gpt_image_payload
    rw [payloadLookup_addOptional]
    cases variants <;> rfl
  · unfold flux_payload
    rw [payloadLookup_addOptional]
    rfl
  · unfold flux_payload
    rw [payloadLookup_addOptional]
    rfl
  · unfold flux_payload
    rw [payloadLookup_addOptional]
    rfl
  · unfold flux_payload
    rw [payloadLookup_addOptional]
    rfl
  · unfold flux_payload
    rw [payloadLookup_addOptional]
    cases seed <;> rfl
  · unfold flux_payload
    rw [payloadLookup_addOptional]
    cases aspect_ratio with
    | none => rfl
    | some s =>
      by_cases hs : s = ""
      · have hb : (s == "") = true := by simp [hs]
        simp [keepsValue, pyOpt, List.find?, strFieldEntry, hb, hs]
      · have hb : (s == "") = false := by simp [hs]
        simp [keepsValue, pyOpt, List.find?, strFieldEntry, hb, hs]
  · unfold flux_payload
    rw [payloadLookup_addOptional]
    cases output_format with
    | none => rfl
    | some s =>
      by_cases hs : s = ""
      · have hb : (s == "") = true := by simp [hs]
        simp [keepsValue, pyOpt, List.find?, strFieldEntry, hb, hs]
      · have hb : (s == "") = false := by simp [hs]
        simp [keepsValue, pyOpt, List.find?, strFieldEntry, hb, hs]
  · unfold flux_payload
    rw [payloadLookup_addOptional]
    cases safety_tolerance <;> rfl
  · unfold flux_payload
    rw [payloadLookup_addOptional]
    cases prompt_upsampling <;> rfl
  · unfold flux_payload
    rw [payloadLookup_addOptional]
    cases guidance_scale <;> rfl
  · unfold flux_payload
    rw [payloadLookup_addOptional]
    cases num_inference_steps <;> rfl

/-- Claim C7 (counterexample): prepending the framing prefix does not
always preserve the decoded envelope: for the body "data: 1" the
decoder parses "data: " ++ "data: 1" by stripping one prefix and then
failing on "data: 1", while decoding "data: 1" itself strips the prefix
and succeeds on "1". -/
theorem decode_data_tag_ce :
    decodeBody jsonLoadsOn1 ("data: " ++ "data: 1") ≠ decodeBody jsonLoadsOn1 "data: 1" :=
  fun h => Option.noConfusion h

/-- Claim C7 (amended): for every body b that does not itself begin with
"data: ", decoding "data: " ++ b yields the same parsed envelope as
decoding b: the decoder strips exactly the 6-character literal prefix
once when present and parses the remainder, and parses the body as-is
otherwise. -/
theorem decode_data_tag_amended (parse : String → Option Json) (b : String)
    (h : pyStartsWith b "data: " = false) :
    decodeBody parse ("data: " ++ b) = decodeBody parse b ∧
    decodeBody parse ("data: " ++ b) = parse b ∧
    decodeBody parse b = parse b := by
  have h1 : pyStartsWith ("data: " ++ b) "data: " = true := by
    simp [pyStartsWith, List.isPrefixOf_iff_prefix, String.data_append]
  have h2 : pyDrop ("data: " ++ b) 6 = b := by
    simp [pyDrop, String.data_append]
  have h3 : decodeBody parse ("data: " ++ b) = parse b := by
    unfold decodeBody stripDataTag
    rw [h1, if_pos rfl, h2]
  have h4 : decodeBody parse b = parse b := by
    unfold decodeBody stripDataTag
    rw [h]
    simp
  exact ⟨h3.trans h4.symm, h3, h4⟩

/-- Witness for the amended framing theorem at the body "1". -/
theorem decode_data_tag_amended_witness :
    pyStartsWith "1" "data: " = false ∧
    decodeBody jsonLoadsOn1 ("data: " ++ "1") = decodeBody jsonLoadsOn1 "1" :=
  ⟨by decide, (decode_data_tag_amended jsonLoadsOn1 "1" (by decide)).1⟩

/-- Claim C8: whenever the single-result response carries a url value
that is not a string starting with "http", flux_generate_image fails
with the invalid-URL GrsaiAPIError, and it does so for every download
oracle — so no image download is attempted before the failure. -/
theorem flux_invalid_url_no_download {α : Type} (download : String → Option α)
    (resp v : Json) (hurl : resp.getField "url" = some v)
    (hbad : isHttpStr v = false) :
    flux_post_response download resp = .error (.invalidUrlFormat v) := by
  unfold flux_post_response
  rw [hurl]
  cases v with
  | str u =>
    have hb : pyStartsWith u "http" = false := hbad
    simp [hb]
  | null => rfl
  | bool b => rfl
  | num n => rfl
  | arr xs => rfl
  | obj fields => rfl

/-- Witness for the invalid-URL theorem at the url "not-a-url". -/
theorem flux_invalid_url_no_download_witness :
    (Json.obj [("url", Json.str "not-a-url")]).getField "url" = some (Json.str "not-a-url") ∧
    isHttpStr (Json.str "not-a-url") = false ∧
    flux_post_response (fun _ => (none : Option Unit)) (Json.obj [("url", Json.str "not-a-url")]) =
      .error (.invalidUrlFormat (Json.str "not-a-url")) :=
  ⟨rfl, by decide,
    flux_invalid_url_no_download (fun _ => (none : Option Unit)) _ _ rfl (by decide)⟩

/-- Claim C9: for every successful direct-PUT upload the URL returned by
upload_file equals domain + "/" + key where domain and key are exactly
the fields of the preceding token-negotiation response, and the same
equation holds for the form-POST variant upload_file_zh. -/
theorem upload_url_is_domain_slash_key
    (w : UploadWorld) (apiKey p : String)
    (j d uv : Json) (keyS domS : String)
    (j2 d2 tokv uv2 : Json) (keyS2 domS2 : String)
    (hp : (p == "") = false)
    (hk : pyStartsWith (pyStrip apiKey) "sk-" = true)
    (hx : w.file_exists p = true)
    (ht : w.new_upload_token (uploadExt p) = .ok j)
    (hd : j.getField "data" = some d)
    (hu : d.getField "url" = some uv)
    (hkey : d.getField "key" = some (.str keyS))
    (hdom : d.getField "domain" = some (.str domS))
    (hr : w.read_ok = true)
    (hput : w.put_ok = true)
    (ht2 : w.new_upload_token_zh (uploadExt p) = .ok j2)
    (hd2 : j2.getField "data" = some d2)
    (htok2 : d2.getField "token" = some tokv)
    (hu2 : d2.getField "url" = some uv2)
    (hkey2 : d2.getField "key" = some (.str keyS2))
    (hdom2 : d2.getField "domain" = some (.str domS2))
    (hpost : w.post_ok = true) :
    upload_file w (some apiKey) p = .ok (domS ++ "/" ++ keyS) ∧
    upload_file_zh w (some apiKey) p = .ok (domS2 ++ "/" ++ keyS2) := by
  have hke : (pyStrip apiKey == "") = false :=
    pyStartsWith_ne_empty (pyStrip apiKey) "sk-" (by decide) hk
  constructor
  · unfold upload_file uploadSwap effectiveKey uploadFinish
    simp [hp, hke, hk, hx, ht, hd, hu, hkey, hdom, hr, hput]
  · unfold upload_file_zh uploadSwap effectiveKey uploadFinish
    simp [hp, hke, hk, hx, ht2, hd2, htok2, hu2, hkey2, hdom2, hr, hpost]

/-- Witness for the upload round-trip theorem in a concrete world. -/
theorem upload_url_is_domain_slash_key_witness :
    (("img.png" : String) == "") = false ∧
    pyStartsWith (pyStrip "sk-abc") "sk-" = true ∧
    uploadWorldW.new_upload_token (uploadExt "img.png") = .ok uploadTokenJson ∧
    uploadTokenJson.getField "data" = some uploadDataJson ∧
    uploadDataJson.getField "key" = some (.str "k1") ∧
    uploadDataJson.getField "domain" = some (.str "https://cdn.example") ∧
    uploadWorldW.new_upload_token_zh (uploadExt "img.png") = .ok uploadTokenJsonZh ∧
    uploadTokenJsonZh.getField "data" = some uploadDataJsonZh ∧
    uploadDataJsonZh.getField "key" = some (.str "k2") ∧
    uploadDataJsonZh.getField "domain" = some (.str "https://cdn2.example") ∧
    upload_file uploadWorldW (some "sk-abc") "img.png" =
      .ok ("https://cdn.example" ++ "/" ++ "k1") ∧
    upload_file_zh uploadWorldW (some "sk-abc") "img.png" =
      .ok ("https://cdn2.example" ++ "/" ++ "k2") := by
  have h := upload_url_is_domain_slash_key uploadWorldW "sk-abc" "img.png"
    uploadTokenJson uploadDataJson (Json.str "https://put.example/obj") "k1" "https://cdn.example"
    uploadTokenJsonZh uploadDataJsonZh (Json.str "t1") (Json.str "https://post.example/obj")
    "k2" "https://cdn2.example"
    rfl (by decide) rfl rfl rfl rfl rfl rfl rfl rfl rfl rfl rfl rfl rfl rfl rfl
  exact ⟨rfl, by decide, rfl, rfl, rfl, rfl, rfl, rfl, rfl, rfl, h.1, h.2⟩

/-- Claim C10: when the decoded generation response has status
"succeeded" but an empty results list, gpt_image_generate_image does
not return empty collections: building
ThreadPoolExecutor(max_workers=len(resultsUrls)) with length 0 raises a
ValueError that escapes the public method and is not a GrsaiAPIError. -/
theorem gpt_empty_results_value_error {α : Type} (download : Json → Option α)
    (parse : String → Option Json) (maxRetries : Nat) (events : Nat → AttemptEvent)
    (resp : Json)
    (hok : (make_request parse maxRetries events).result = .ok resp)
    (hst : resp.getField "status" = some (.str "succeeded"))
    (hres : resp.getField "results" = some (.arr [])) :
    gpt_image_generate_image parse maxRetries events download =
      .error (.genErr .maxWorkersValueErr) ∧
    TopErr.is_grsai_api_error (.genErr .maxWorkersValueErr) = false := by
  constructor
  · have hpost : gpt_post_response download resp = .error .maxWorkersValueErr := by
      unfold gpt_post_response
      rw [hst, hres]
      rfl
    unfold gpt_image_generate_image
    rw [hok]
    simp [hpost]
  · rfl

/-- Witness for the empty-results theorem at a concrete response. -/
theorem gpt_empty_results_value_error_witness :
    (make_request (fun _ => some (Json.obj [("status", Json.str "succeeded"), ("results", Json.arr [])]))
        3 (fun _ => .response 200 "x")).result =
      .ok (Json.obj [("status", Json.str "succeeded"), ("results", Json.arr [])]) ∧
    (Json.obj [("status", Json.str "succeeded"), ("results", Json.arr [])]).getField "status" =
      some (Json.str "succeeded") ∧
    (Json.obj [("status", Json.str "succeeded"), ("results", Json.arr [])]).getField "results" =
      some (Json.arr []) ∧
    gpt_image_generate_image
        (fun _ => some (Json.obj [("status", Json.str "succeeded"), ("results", Json.arr [])]))
        3 (fun _ => .response 200 "x") (fun _ => (none : Option Unit)) =
      .error (.genErr .maxWorkersValueErr) :=
  ⟨rfl, rfl, rfl,
    (gpt_empty_results_value_error (fun _ => (none : Option Unit))
      (fun _ => some (Json.obj [("status", Json.str "succeeded"), ("results", Json.arr [])]))
      3 (fun _ => .response 200 "x") _ rfl rfl rfl).1⟩
